import Mathlib

/-!
Shallow embedding of the ride-tracking core of the `taxi_backend` service
(`src/api/routers/rides.py`, `src/api/realtime.py`, `src/api/routers/ws.py`,
and the ORM models they read), together with theorems settling the frozen
claims about the natural-language specification.

Conventions of the embedding:
- UUIDs are modelled as `Nat` identifiers (`UserId`, `RideId`); only equality
  on them is ever used by the code under study.
- Python dicts keyed by UUID are modelled by insertion-ordered association
  lists (`AMap`), with dict assignment replacing in place and `pop` removing.
- Latitude/longitude are carried as `Int` values; the code never computes on
  them, it only stores and forwards them.
- Raised `HTTPException(status_code, detail)` becomes `Except.error` carrying
  an `HTTPError`; other Python exceptions (`ValueError`, `ImportError`)
  become `PyError`.
- The `observer` channel of the spec is the `admin` channel of the source
  (`/ws/ride/{id}/admin`, `RideRoom.admins`); the spec renamed it uniformly.
-/

namespace RideConnect

/-- Ride status values, from `models/ride.py` (`RideStatus`). -/
inductive RideStatus where
  | requested
  | assigned
  | enroute
  | started
  | completed
  | canceled
deriving DecidableEq, Repr, Fintype

/-- String value of a ride status, mirroring `.value` on the Python enum. -/
def RideStatus.value : RideStatus → String
  | .requested => "requested"
  | .assigned => "assigned"
  | .enroute => "enroute"
  | .started => "started"
  | .completed => "completed"
  | .canceled => "canceled"

/-- User roles, from `models/user.py` (`UserRole`). -/
inductive UserRole where
  | rider
  | driver
deriving DecidableEq, Repr, Fintype

/-- String value of a user role, mirroring `.value` on the Python enum. -/
def UserRole.value : UserRole → String
  | .rider => "rider"
  | .driver => "driver"

abbrev UserId := Nat
abbrev RideId := Nat
abbrev Coord := Int

/-- An `HTTPException(status_code, detail)` raised by a handler. -/
structure HTTPError where
  statusCode : Nat
  detail : String
deriving DecidableEq, Repr

/-- Non-HTTP Python exceptions raised on the realtime paths. -/
inductive PyError where
  | valueError (msg : String)
  | importError (missingName : String)
deriving DecidableEq, Repr

/-- Does a handler result signal a conflict (HTTP 409)? -/
def isConflict409 {α : Type} : Except HTTPError α → Bool
  | .error e => e.statusCode == 409
  | .ok _ => false

/-- Is a handler result a success? -/
def exceptIsOk {α : Type} : Except HTTPError α → Bool
  | .error _ => false
  | .ok _ => true

instance {ε α : Type} [DecidableEq ε] [DecidableEq α] : DecidableEq (Except ε α) := fun a b =>
  match a, b with
  | .ok x, .ok y => if h : x = y then .isTrue (by rw [h]) else .isFalse (by simp [h])
  | .error x, .error y => if h : x = y then .isTrue (by rw [h]) else .isFalse (by simp [h])
  | .ok _, .error _ => .isFalse (by simp)
  | .error _, .ok _ => .isFalse (by simp)

/-- Transition rules, from `rides.py` `_allowed_transitions` (the Python sets
are modelled as lists; only membership is ever queried). -/
def allowedTransitions : RideStatus → List RideStatus
  | .requested => [.assigned, .canceled]
  | .assigned => [.enroute, .canceled]
  | .enroute => [.started, .canceled]
  | .started => [.completed, .canceled]
  | .completed => []
  | .canceled => []

/-- `rides.py` `_validate_transition`: same status is accepted, a status in
the adjacency set is accepted, anything else raises HTTP 409. -/
def validateTransition (current «new» : RideStatus) : Except HTTPError Unit :=
  if «new» = current then .ok ()
  else if «new» ∈ allowedTransitions current then .ok ()
  else .error ⟨409, "Invalid status transition from \x27" ++ current.value ++ "\x27 to \x27" ++ «new».value ++ "\x27."⟩

/-- Claim C1: for every pair of ride statuses with `desired ≠ current` and
`desired` outside the adjacency set of `_allowed_transitions`,
`_validate_transition` raises a conflict (HTTP 409), and for every pair with
`desired` inside the adjacency set it succeeds without error. -/
theorem validate_transition_conflict_iff_not_adjacent :
    ∀ current desired : RideStatus,
      (desired ≠ current → desired ∉ allowedTransitions current →
        isConflict409 (validateTransition current desired) = true) ∧
      (desired ∈ allowedTransitions current →
        validateTransition current desired = .ok ()) := by
  decide

/-- Witness for C1 at a concrete pair: `requested → started` conflicts, and
`requested → assigned` succeeds. -/
theorem validate_transition_conflict_iff_not_adjacent_witness :
    isConflict409 (validateTransition .requested .started) = true ∧
      validateTransition .requested .assigned = .ok () :=
  ⟨(validate_transition_conflict_iff_not_adjacent .requested .started).1
      (by decide) (by decide),
    (validate_transition_conflict_iff_not_adjacent .requested .assigned).2 (by decide)⟩

/-- A row of the append-only `ride_events` table (`models/ride.py`,
`RideEvent`); the JSON payload is modelled as a key/value list. -/
structure EventRec where
  ride_id : RideId
  event_type : String
  payload : List (String × String)
deriving DecidableEq, Repr

/-- A row of the `rides` table (`models/ride.py`, `Ride`). -/
structure Ride where
  id : RideId
  rider_id : UserId
  driver_id : Option UserId
  origin_lat : Coord
  origin_lng : Coord
  dest_lat : Coord
  dest_lng : Coord
  status : RideStatus
  fare_cents : Option Int
  created_at : Nat
  updated_at : Nat
deriving DecidableEq, Repr

/-- A row of the `users` table (`models/user.py`, `User`); only the fields
the ride/realtime code reads. -/
structure User where
  id : UserId
  role : UserRole
deriving DecidableEq, Repr

/-- A row of the `drivers` table (`models/driver.py`, `Driver`); only the
fields the assignment code reads. -/
structure DriverProfile where
  id : UserId
  is_available : Bool
deriving DecidableEq, Repr

/-- `rides.py` `_forbidden`. -/
def forbidden (detail : String) : HTTPError := ⟨403, detail⟩

/-- `rides.py` `_not_found`. -/
def notFound : HTTPError := ⟨404, "Ride not found."⟩

/-- `rides.py` `_ensure_user_can_view_ride`. -/
def ensureUserCanViewRide (currentUser : User) (ride : Ride) : Except HTTPError Unit :=
  if ride.rider_id = currentUser.id then .ok ()
  else match ride.driver_id with
    | some d => if d = currentUser.id then .ok () else .error (forbidden "You do not have access to this ride.")
    | none => .error (forbidden "You do not have access to this ride.")

/-- `rides.py` `_ensure_driver_can_modify_ride`. -/
def ensureDriverCanModifyRide (driverUser : User) (ride : Ride) : Except HTTPError Unit :=
  if driverUser.role.value ≠ UserRole.driver.value then
    .error (forbidden "Driver role required.")
  else match ride.driver_id with
    | none => .ok ()
    | some d =>
        if d ≠ driverUser.id then .error (forbidden "This ride is not assigned to the current driver.")
        else .ok ()

/-- The `status_changed` event appended by `update_ride_status`. -/
def statusChangedEvent (ride : Ride) (fromStatus toStatus : RideStatus) (byUser : UserId) : EventRec :=
  ⟨ride.id, "status_changed", [("from", fromStatus.value), ("to", toStatus.value), ("by_user_id", toString byUser)]⟩

/-- The `driver_assigned` event appended by `assign_driver`. -/
def driverAssignedEvent (ride : Ride) (driverId : UserId) : EventRec :=
  ⟨ride.id, "driver_assigned", [("driver_id", toString driverId)]⟩

/-- Result of one REST handler call: the HTTP response together with the
stored ride row and event table after the call (a raised `HTTPException`
commits nothing, so the stored state is returned unchanged on error). -/
structure HandlerOutcome where
  response : Except HTTPError Ride
  ride : Option Ride
  events : List EventRec
deriving DecidableEq, Repr

/-- The checks-then-mutation body of `rides.py` `update_ride_status`, after
the ride row has been found. -/
def updateRideStatusCore (currentUser : User) (ride : Ride) (desired : RideStatus)
    (events : List EventRec) (now : Nat) : Except HTTPError (Ride × List EventRec) := do
  ensureUserCanViewRide currentUser ride
  if currentUser.role.value = UserRole.rider.value then
    if ride.rider_id ≠ currentUser.id then
      throw (forbidden "Only the ride rider may update this ride.")
    else if desired ≠ RideStatus.canceled then
      throw (forbidden "Riders may only cancel rides.")
    else if ride.status = RideStatus.completed ∨ ride.status = RideStatus.canceled then
      throw ⟨409, "Ride is already completed or canceled."⟩
  if currentUser.role.value = UserRole.driver.value then
    ensureDriverCanModifyRide currentUser ride
    if ride.driver_id = none then
      throw ⟨409, "Ride must be assigned to a driver before status can be updated."⟩
    else if ride.driver_id ≠ some currentUser.id then
      throw (forbidden "This ride is not assigned to the current driver.")
  validateTransition ride.status desired
  let ride' := { ride with status := desired, updated_at := now }
  pure (ride', events ++ [statusChangedEvent ride ride.status desired currentUser.id])

/-- `rides.py` `update_ride_status` (`PATCH /rides/{ride_id}/status`):
looks up the ride, runs the checks, and commits the mutation and the
`status_changed` event only on success. -/
def updateRideStatus (currentUser : User) (storedRide : Option Ride) (desired : RideStatus)
    (events : List EventRec) (now : Nat) : HandlerOutcome :=
  match storedRide with
  | none => ⟨.error notFound, none, events⟩
  | some ride =>
      match updateRideStatusCore currentUser ride desired events now with
      | .error e => ⟨.error e, some ride, events⟩
      | .ok (ride', events') => ⟨.ok ride', some ride', events'⟩

/-- `not driver_profile or not bool(driver_profile.is_available)` from
`assign_driver`, negated: the profile row exists and its availability flag
is true. -/
def profileAvailable : Option DriverProfile → Bool
  | none => false
  | some p => p.is_available

/-- `rides.py` `assign_driver` (`POST /rides/{ride_id}/assign`), including
the `require_driver` dependency (403 for non-drivers) that runs first. -/
def assignDriver (currentUser : User) (payloadDriverId : UserId) (storedRide : Option Ride)
    (profile : Option DriverProfile) (events : List EventRec) (now : Nat) : HandlerOutcome :=
  if currentUser.role.value ≠ UserRole.driver.value then
    ⟨.error (forbidden "Driver role required."), storedRide, events⟩
  else if payloadDriverId ≠ currentUser.id then
    ⟨.error (forbidden "Drivers can only assign themselves to rides."), storedRide, events⟩
  else match storedRide with
    | none => ⟨.error notFound, none, events⟩
    | some ride =>
        if ride.driver_id ≠ none ∧ ride.driver_id ≠ some currentUser.id then
          ⟨.error ⟨409, "Ride is already assigned to another driver."⟩, some ride, events⟩
        else if ride.status ≠ RideStatus.requested then
          ⟨.error ⟨409, "Ride can only be assigned when status is \x27requested\x27."⟩, some ride, events⟩
        else if profileAvailable profile = false then
          ⟨.error ⟨409, "Driver is not available for assignment."⟩, some ride, events⟩
        else
          let ride' := { ride with driver_id := some currentUser.id,
                                   status := RideStatus.assigned, updated_at := now }
          ⟨.ok ride', some ride', events ++ [driverAssignedEvent ride' currentUser.id]⟩

/-- Claim C4 counterexample: a status-update request with desired status
equal to the current status (driver `2` on their assigned ride, `assigned →
assigned`) succeeds but DOES append a new `status_changed` event record
(`from = to = assigned`), so the endpoint is not a no-op on the event log. -/
theorem update_ride_status_same_status_counterexample :
    exceptIsOk (updateRideStatus ⟨2, .driver⟩
        (some ⟨1, 1, some 2, 0, 0, 0, 0, .assigned, none, 0, 0⟩) .assigned [] 5).response = true ∧
      (updateRideStatus ⟨2, .driver⟩
        (some ⟨1, 1, some 2, 0, 0, 0, 0, .assigned, none, 0, 0⟩) .assigned [] 5).events =
        [⟨1, "status_changed", [("from", "assigned"), ("to", "assigned"), ("by_user_id", "2")]⟩] := by
  decide

/-- Claim C4 amended: `_validate_transition(s, s)` itself succeeds for every
status `s`, and a status-update request with desired status equal to the
current status succeeds (for the assigned driver), but it DOES record a new
`status_changed` event with `from = to = s` and bumps `updated_at`. -/
theorem update_ride_status_same_status_appends_event (user : User) (ride : Ride)
    (events : List EventRec) (now : Nat)
    (hrole : user.role = .driver) (hassigned : ride.driver_id = some user.id) :
    validateTransition ride.status ride.status = .ok () ∧
      updateRideStatus user (some ride) ride.status events now =
        ⟨.ok { ride with updated_at := now }, some { ride with updated_at := now },
          events ++ [statusChangedEvent ride ride.status ride.status user.id]⟩ := by
  obtain ⟨uid, urole⟩ := user
  simp only at hrole hassigned
  subst hrole
  refine ⟨by simp [validateTransition], ?_⟩
  simp [updateRideStatus, updateRideStatusCore, ensureUserCanViewRide,
    ensureDriverCanModifyRide, validateTransition, UserRole.value, hassigned,
    Bind.bind, Except.bind, pure, Except.pure]

/-- Witness for C4's amended theorem at a concrete input. -/
theorem update_ride_status_same_status_appends_event_witness :
    updateRideStatus ⟨2, .driver⟩
        (some ⟨1, 1, some 2, 0, 0, 0, 0, .assigned, none, 0, 0⟩) .assigned [] 5 =
      ⟨.ok ⟨1, 1, some 2, 0, 0, 0, 0, .assigned, none, 0, 5⟩,
        some ⟨1, 1, some 2, 0, 0, 0, 0, .assigned, none, 0, 5⟩,
        [⟨1, "status_changed", [("from", "assigned"), ("to", "assigned"), ("by_user_id", "2")]⟩]⟩ :=
  (update_ride_status_same_status_appends_event ⟨2, .driver⟩
      ⟨1, 1, some 2, 0, 0, 0, 0, .assigned, none, 0, 0⟩ [] 5 rfl rfl).2

/-- Claim C6: under the data-model invariant (`driver_id` is null iff status
is `requested`, spec §3), with the request well-formed (`require_driver`
passed, `payload.driver_id` equal to the caller, ride found), an assign
request succeeds iff status is `requested`, `driver_id` is null and the
availability flag of the driver is true; every rejected attempt is an HTTP 409
conflict and leaves the stored ride row and event table unchanged. -/
theorem assign_driver_preconditions (user : User) (pid : UserId) (ride : Ride)
    (profile : Option DriverProfile) (events : List EventRec) (now : Nat)
    (hrole : user.role = .driver) (hpay : pid = user.id)
    (hinv : ride.driver_id = none ↔ ride.status = .requested) :
    (exceptIsOk (assignDriver user pid (some ride) profile events now).response = true ↔
      (ride.status = .requested ∧ ride.driver_id = none ∧ profileAvailable profile = true)) ∧
      (exceptIsOk (assignDriver user pid (some ride) profile events now).response = false →
        isConflict409 (assignDriver user pid (some ride) profile events now).response = true) ∧
      (exceptIsOk (assignDriver user pid (some ride) profile events now).response = false →
        (assignDriver user pid (some ride) profile events now).ride = some ride ∧
          (assignDriver user pid (some ride) profile events now).events = events) := by
  subst hpay
  obtain ⟨uid, urole⟩ := user
  simp only at hrole
  subst hrole
  simp only [assignDriver, UserRole.value]
  rw [if_neg (by simp), if_neg (by simp)]
  split_ifs with h1 h2 h3
  · refine ⟨⟨fun h => by simp [exceptIsOk] at h, ?_⟩,
      by simp [exceptIsOk, isConflict409], by simp [exceptIsOk]⟩
    rintro ⟨-, hnone, -⟩
    exact absurd hnone h1.1
  · refine ⟨⟨fun h => by simp [exceptIsOk] at h, ?_⟩,
      by simp [exceptIsOk, isConflict409], by simp [exceptIsOk]⟩
    rintro ⟨hreq, -, -⟩
    exact absurd hreq h2
  · refine ⟨⟨fun h => by simp [exceptIsOk] at h, ?_⟩,
      by simp [exceptIsOk, isConflict409], by simp [exceptIsOk]⟩
    rintro ⟨-, -, havail⟩
    simp [h3] at havail
  · push_neg at h2
    refine ⟨⟨fun _ => ⟨h2, hinv.mpr h2, by simpa using h3⟩, fun _ => by simp [exceptIsOk]⟩,
      by simp [exceptIsOk], by simp [exceptIsOk]⟩

/-- Witness for C6 at a concrete input: driver `2`, available, ride in
status `requested` with no driver assigned — the assignment succeeds. -/
theorem assign_driver_preconditions_witness :
    exceptIsOk (assignDriver ⟨2, .driver⟩ 2
        (some ⟨1, 1, none, 0, 0, 0, 0, .requested, none, 0, 0⟩)
        (some ⟨2, true⟩) [] 7).response = true :=
  (assign_driver_preconditions ⟨2, .driver⟩ 2
      ⟨1, 1, none, 0, 0, 0, 0, .requested, none, 0, 0⟩
      (some ⟨2, true⟩) [] 7 rfl rfl (by decide)).1.mpr (by decide)

/-! Realtime broker (`src/api/realtime.py`). Python dicts keyed by UUID are
modelled as insertion-ordered association lists. -/

/-- Insertion-ordered map with `Nat` keys, modelling a Python dict. -/
abbrev AMap (α : Type) := List (Nat × α)

/-- `m.get(k)` on a dict. -/
def mapLookup {α : Type} (m : AMap α) (k : Nat) : Option α :=
  match m with
  | [] => none
  | (k', v) :: rest => if k' = k then some v else mapLookup rest k

/-- `m[k] = v` on a dict: replace in place if present, else append. -/
def mapSet {α : Type} (m : AMap α) (k : Nat) (v : α) : AMap α :=
  match m with
  | [] => [(k, v)]
  | (k', v') :: rest => if k' = k then (k, v) :: rest else (k', v') :: mapSet rest k v

/-- `m.pop(k, None)` on a dict (the returned value is ignored by all
callers): drop the entry with the given key, keep the rest in order. -/
def mapPop {α : Type} (m : AMap α) (k : Nat) : AMap α :=
  match m with
  | [] => []
  | (k', v) :: rest => if k' = k then mapPop rest k else (k', v) :: mapPop rest k

/-- Heartbeat interval, from `realtime.py` (`PING_INTERVAL_SECONDS`). -/
def PING_INTERVAL_SECONDS : Nat := 20

/-- Per-send timeout, from `realtime.py` (`SEND_TIMEOUT_SECONDS`). -/
def SEND_TIMEOUT_SECONDS : Nat := 3

/-- Eviction threshold, from `realtime.py` (`MAX_CONSECUTIVE_SEND_TIMEOUTS`). -/
def MAX_CONSECUTIVE_SEND_TIMEOUTS : Nat := 3

/-- One active WebSocket client connection (`realtime.py` `Connection`);
the transport handle is modelled by an opaque socket identifier. Note the
dataclass has NO consecutive-send-failure counter field. -/
structure Connection where
  websocket : Nat
  user_id : UserId
  role : String
  connected_at : Nat
deriving DecidableEq, Repr

/-- The `location_payload` dict built by `run_ws_session` for a driver
location update (its `"type"` key is always `"driver_location"`). -/
structure LocationPayload where
  ride_id : RideId
  driver_id : UserId
  lat : Coord
  lng : Coord
  ts : Nat
deriving DecidableEq, Repr

/-- Per-ride room of subscribers (`realtime.py` `RideRoom`): three dicts
keyed by user id, plus the cached last-known driver location. The spec calls
the `admins` mapping the `observer` mapping. -/
structure RideRoom where
  ride_id : RideId
  riders : AMap Connection
  drivers : AMap Connection
  admins : AMap Connection
  last_location : Option LocationPayload
deriving DecidableEq, Repr

/-- `RideRoom.__init__`. -/
def emptyRoom (ride_id : RideId) : RideRoom := ⟨ride_id, [], [], [], none⟩

/-- `RideRoom.add(conn, channel)`: insert into the dict selected by the
channel string; an unknown channel raises `ValueError`. -/
def RideRoom.add (room : RideRoom) (conn : Connection) (channel : String) :
    Except PyError RideRoom :=
  if channel = "rider" then
    .ok { room with riders := mapSet room.riders conn.user_id conn }
  else if channel = "driver" then
    .ok { room with drivers := mapSet room.drivers conn.user_id conn }
  else if channel = "admin" then
    .ok { room with admins := mapSet room.admins conn.user_id conn }
  else
    .error (.valueError ("Unknown channel: " ++ channel))

/-- `RideRoom.remove(user_id)`: pop the user from all three dicts. -/
def RideRoom.remove (room : RideRoom) (user_id : UserId) : RideRoom :=
  { room with
    riders := mapPop room.riders user_id,
    drivers := mapPop room.drivers user_id,
    admins := mapPop room.admins user_id }

/-- The dict returned by `RideRoom.snapshot()`. -/
structure RoomSnapshot where
  ride_id : RideId
  rider_count : Nat
  driver_count : Nat
  admin_count : Nat
  last_location : Option LocationPayload
deriving DecidableEq, Repr

/-- `RideRoom.snapshot()`: subscriber counts per channel plus the cached
location. -/
def RideRoom.snapshot (room : RideRoom) : RoomSnapshot :=
  ⟨room.ride_id, room.riders.length, room.drivers.length, room.admins.length,
    room.last_location⟩

/-- Process-wide broker state (`realtime.py` `InMemoryRideBroker`):
the `_rooms` dict mapping ride id to room. -/
structure Broker where
  rooms : AMap RideRoom
deriving DecidableEq, Repr

/-- `InMemoryRideBroker.get_room(ride_id)`: return the registered room, or
create and register a fresh one. Returns the room together with the broker
state after the call. -/
def Broker.get_room (b : Broker) (ride_id : RideId) : RideRoom × Broker :=
  match mapLookup b.rooms ride_id with
  | some room => (room, b)
  | none =>
      let room := emptyRoom ride_id
      (room, ⟨mapSet b.rooms ride_id room⟩)

/-- `InMemoryRideBroker.cleanup_if_empty(ride_id)`: drop the registry entry
when all three subscriber counts are zero. -/
def Broker.cleanup_if_empty (b : Broker) (ride_id : RideId) : Broker :=
  match mapLookup b.rooms ride_id with
  | none => b
  | some room =>
      let snap := room.snapshot
      if snap.rider_count = 0 ∧ snap.driver_count = 0 ∧ snap.admin_count = 0 then
        ⟨mapPop b.rooms ride_id⟩
      else b

/-- The point-in-time copy of the connection lists taken under the room lock
by `broadcast_to_ride` (dict `.values()` in insertion order). -/
def RideRoom.connsFor (room : RideRoom) (to_riders to_drivers to_admins : Bool) :
    List Connection :=
  (if to_riders then room.riders.map Prod.snd else []) ++
    (if to_drivers then room.drivers.map Prod.snd else []) ++
    (if to_admins then room.admins.map Prod.snd else [])

/-- The send pass of `broadcast_to_ride`: walk the copied connection list,
counting failed sends per user id in the LOCAL `send_timeouts` dict (created
afresh on every call) and collecting users whose count in this call reaches
`MAX_CONSECUTIVE_SEND_TIMEOUTS` into `stale`. `sendOk` is the network
oracle: whether `_safe_send_json` succeeds for a connection in this call. -/
def sendPass (sendOk : Connection → Bool) (conns : List Connection) :
    AMap Nat × List UserId :=
  conns.foldl
    (fun acc c =>
      if sendOk c then acc
      else
        let n := (mapLookup acc.1 c.user_id).getD 0 + 1
        let timeouts := mapSet acc.1 c.user_id n
        if MAX_CONSECUTIVE_SEND_TIMEOUTS ≤ n then (timeouts, acc.2 ++ [c.user_id])
        else (timeouts, acc.2))
    ([], [])

/-- `broadcast_to_ride(ride_id, payload, *, flags)` as a transformer of the
broker state: resolve the room, copy the relevant connections, run the send
pass, remove stale users from the (aliased) room, then run
`cleanup_if_empty`. The payload itself plays no role in the state change. -/
def broadcastToRide (sendOk : Connection → Bool) (b : Broker) (ride_id : RideId)
    (to_riders to_drivers to_admins : Bool) : Broker :=
  let (room, b1) := b.get_room ride_id
  let conns := room.connsFor to_riders to_drivers to_admins
  let stale := (sendPass sendOk conns).2
  let room' := stale.foldl RideRoom.remove room
  let b2 : Broker := ⟨mapSet b1.rooms ride_id room'⟩
  b2.cleanup_if_empty ride_id

/-! Generic dict lemmas shared by the room/broker proofs. -/

theorem mapLookup_mapSet_self {α : Type} (m : AMap α) (k : Nat) (v : α) :
    mapLookup (mapSet m k v) k = some v := by
  induction m with
  | nil => simp [mapSet, mapLookup]
  | cons hd tl ih =>
      obtain ⟨k', v'⟩ := hd
      by_cases h : k' = k <;> simp [mapSet, mapLookup, h, ih]

theorem mapLookup_mapSet_ne {α : Type} (m : AMap α) (k k' : Nat) (v : α) (h : k' ≠ k) :
    mapLookup (mapSet m k v) k' = mapLookup m k' := by
  induction m with
  | nil => simp [mapSet, mapLookup, Ne.symm h]
  | cons hd tl ih =>
      obtain ⟨k0, v0⟩ := hd
      by_cases h0 : k0 = k
      · subst h0
        simp [mapSet, mapLookup, Ne.symm h]
      · simp only [mapSet, if_neg h0, mapLookup]
        by_cases h1 : k0 = k' <;> simp [h1, ih]

theorem mapLookup_mapPop_self {α : Type} (m : AMap α) (k : Nat) :
    mapLookup (mapPop m k) k = none := by
  induction m with
  | nil => simp [mapPop, mapLookup]
  | cons hd tl ih =>
      obtain ⟨k', v'⟩ := hd
      by_cases h : k' = k <;> simp [mapPop, mapLookup, h, ih]

theorem mapLookup_mapPop_ne {α : Type} (m : AMap α) (k k' : Nat) (h : k' ≠ k) :
    mapLookup (mapPop m k) k' = mapLookup m k' := by
  induction m with
  | nil => simp [mapPop]
  | cons hd tl ih =>
      obtain ⟨k0, v0⟩ := hd
      by_cases h0 : k0 = k
      · subst h0
        simp [mapPop, mapLookup, Ne.symm h, ih]
      · simp only [mapPop, if_neg h0, mapLookup]
        by_cases h1 : k0 = k' <;> simp [h1, ih]

theorem mapPop_mapPop {α : Type} (m : AMap α) (k : Nat) :
    mapPop (mapPop m k) k = mapPop m k := by
  induction m with
  | nil => rfl
  | cons hd tl ih =>
      obtain ⟨k', v'⟩ := hd
      by_cases h : k' = k <;> simp [mapPop, h, ih]

theorem mapPop_eq_self_of_lookup_none {α : Type} (m : AMap α) (k : Nat)
    (h : mapLookup m k = none) : mapPop m k = m := by
  induction m with
  | nil => rfl
  | cons hd tl ih =>
      obtain ⟨k', v'⟩ := hd
      by_cases h0 : k' = k
      · simp [mapLookup, h0] at h
      · simp only [mapLookup, if_neg h0] at h
        simp [mapPop, h0, ih h]

/-- Claim C9: `Room.add` inserts the connection into the mapping selected by
the channel for each of the three channel values (what the spec calls
`observer` is `admin` in the source), rejects any other channel with a
`ValueError`;
`Room.remove` removes the user from all three mappings, removing an absent
user is a no-op, and remove applied twice equals remove applied once. -/
theorem room_add_remove_semantics :
    (∀ (room : RideRoom) (conn : Connection),
        RideRoom.add room conn "rider" =
            .ok { room with riders := mapSet room.riders conn.user_id conn } ∧
          RideRoom.add room conn "driver" =
            .ok { room with drivers := mapSet room.drivers conn.user_id conn } ∧
          RideRoom.add room conn "admin" =
            .ok { room with admins := mapSet room.admins conn.user_id conn }) ∧
      (∀ (room : RideRoom) (conn : Connection) (channel : String),
          channel ∉ ["rider", "driver", "admin"] →
          RideRoom.add room conn channel =
            .error (.valueError ("Unknown channel: " ++ channel))) ∧
      (∀ (room : RideRoom) (u : UserId),
          mapLookup (room.remove u).riders u = none ∧
            mapLookup (room.remove u).drivers u = none ∧
            mapLookup (room.remove u).admins u = none) ∧
      (∀ (room : RideRoom) (u : UserId), (room.remove u).remove u = room.remove u) ∧
      (∀ (room : RideRoom) (u : UserId),
          mapLookup room.riders u = none → mapLookup room.drivers u = none →
          mapLookup room.admins u = none → room.remove u = room) := by
  refine ⟨fun room conn => ⟨rfl, rfl, rfl⟩, fun room conn channel h => ?_,
    fun room u => ⟨mapLookup_mapPop_self _ _, mapLookup_mapPop_self _ _,
      mapLookup_mapPop_self _ _⟩,
    fun room u => ?_, fun room u h1 h2 h3 => ?_⟩
  · simp only [List.mem_cons, List.not_mem_nil, or_false, not_or] at h
    simp [RideRoom.add, h.1, h.2.1, h.2.2]
  · simp [RideRoom.remove, mapPop_mapPop]
  · cases room
    simp only [RideRoom.remove] at h1 h2 h3 ⊢
    simp [mapPop_eq_self_of_lookup_none _ _ h1, mapPop_eq_self_of_lookup_none _ _ h2,
      mapPop_eq_self_of_lookup_none _ _ h3]

/-- Witness for C9 at concrete inputs: an unknown channel string is rejected
with `ValueError`, and removing an absent user from an empty room changes
nothing. -/
theorem room_add_remove_semantics_witness :
    RideRoom.add (emptyRoom 1) ⟨10, 7, "driver", 0⟩ "ws" =
        .error (.valueError ("Unknown channel: " ++ "ws")) ∧
      RideRoom.remove (emptyRoom 1) 7 = emptyRoom 1 :=
  ⟨room_add_remove_semantics.2.1 (emptyRoom 1) ⟨10, 7, "driver", 0⟩ "ws" (by decide),
    room_add_remove_semantics.2.2.2.2 (emptyRoom 1) 7 rfl rfl rfl⟩

/-- Claim C3 (divergence witness): a room holding one driver connection for
user `7`, to which every broadcast send times out. Three successive
`broadcast_to_ride` calls each record the timeout only in a LOCAL
`send_timeouts` dict, so the per-connection count never accumulates across
calls: after all three failing broadcasts the connection is still present in
the driver mapping of the room, and the room is still registered — the eviction
the claim describes never happens. -/
theorem broadcast_timeouts_do_not_accumulate :
    mapLookup
        (broadcastToRide (fun _ => false)
          (broadcastToRide (fun _ => false)
            (broadcastToRide (fun _ => false)
              ⟨[(1, ⟨1, [], [(7, ⟨10, 7, "driver", 0⟩)], [], none⟩)]⟩
              1 true true true)
            1 true true true)
          1 true true true).rooms 1 =
      some ⟨1, [], [(7, ⟨10, 7, "driver", 0⟩)], [], none⟩ := by
  decide

/-- Claim C10: calling `broadcast_to_ride` on a ride id with no registered
room creates the room on demand, delivers to nobody, and the trailing
`cleanup_if_empty` removes it again — afterwards the broker registry has no
entry for that ride id and every other ride id maps to exactly what it
mapped to before. -/
theorem broadcast_unknown_ride_leaves_registry_unchanged (b : Broker) (rid : RideId)
    (sendOk : Connection → Bool) (to_riders to_drivers to_admins : Bool)
    (h : mapLookup b.rooms rid = none) :
    mapLookup (broadcastToRide sendOk b rid to_riders to_drivers to_admins).rooms rid = none ∧
      ∀ r, r ≠ rid →
        mapLookup (broadcastToRide sendOk b rid to_riders to_drivers to_admins).rooms r =
          mapLookup b.rooms r := by
  have hb : broadcastToRide sendOk b rid to_riders to_drivers to_admins =
      ⟨mapPop (mapSet (mapSet b.rooms rid (emptyRoom rid)) rid (emptyRoom rid)) rid⟩ := by
    have hconns : (emptyRoom rid).connsFor to_riders to_drivers to_admins = [] := by
      simp [RideRoom.connsFor, emptyRoom]
    simp only [broadcastToRide, Broker.get_room, h]
    rw [hconns]
    simp [sendPass, Broker.cleanup_if_empty, mapLookup_mapSet_self,
      RideRoom.snapshot, emptyRoom]
  rw [hb]
  refine ⟨mapLookup_mapPop_self _ _, fun r hr => ?_⟩
  rw [mapLookup_mapPop_ne _ _ _ hr, mapLookup_mapSet_ne _ _ _ _ hr,
    mapLookup_mapSet_ne _ _ _ _ hr]

/-- Witness for C10 at a concrete input: broadcasting into an empty broker
for ride `5` leaves no entry for ride `5`. -/
theorem broadcast_unknown_ride_leaves_registry_unchanged_witness :
    mapLookup (broadcastToRide (fun _ => true) ⟨[]⟩ 5 true true true).rooms 5 = none :=
  (broadcast_unknown_ride_leaves_registry_unchanged ⟨[]⟩ 5 (fun _ => true)
    true true true rfl).1

/-! Session runner (`realtime.py` `run_ws_session` and its helpers). -/

/-- `_close_code`: clamp to a valid close code. -/
def close_code (code : Nat) : Nat :=
  if 1000 ≤ code ∧ code ≤ 4999 then code else 1008

/-- Server-to-client frames sent over the socket of a session. -/
inductive Frame where
  | connected (ride_id : RideId) (channel : String) (user_id : UserId) (role : String)
      (ride_status : RideStatus) (driver_id : Option UserId) (rider_id : UserId)
      (last_location : Option LocationPayload)
  | errorFrame (message : String)
  | ack (received_type : Option String)
  | ping (ts : Nat)
deriving DecidableEq, Repr

/-- `authenticate_ws_user`: a missing token raises 401 locally; a present
token is resolved by the token-decoding and user-lookup collaborators
(`decode_token` plus the `users` query), abstracted as `decodeUser`, which
returns the authenticated user or the 401 `HTTPException` it raises. -/
def authenticateWsUser (token : Option String)
    (decodeUser : String → Except HTTPError User) : Except HTTPError User :=
  match token with
  | none => .error ⟨401, "Missing authentication token (use Authorization: Bearer ... or ?token=...)."⟩
  | some t => decodeUser t

/-- `authorize_ws_ride_access`: per-channel authorization of a user against
the ride row. -/
def authorizeWsRideAccess (user : User) (ride : Ride) (channel : String) :
    Except HTTPError Unit :=
  if channel = "driver" then
    if user.role.value ≠ UserRole.driver.value then
      .error ⟨403, "Driver role required."⟩
    else match ride.driver_id with
      | none => .error ⟨403, "Not the assigned driver for this ride."⟩
      | some d =>
          if d ≠ user.id then .error ⟨403, "Not the assigned driver for this ride."⟩
          else .ok ()
  else if channel = "rider" then
    if user.role.value ≠ UserRole.rider.value then
      .error ⟨403, "Rider role required."⟩
    else if ride.rider_id ≠ user.id then
      .error ⟨403, "Not the rider for this ride."⟩
    else .ok ()
  else if channel = "admin" then
    if user.role.value ≠ UserRole.driver.value then
      .error ⟨403, "Admin channel not allowed."⟩
    else .ok ()
  else .error ⟨403, "Invalid channel."⟩

/-- Observable outcome of the connect → authenticate → authorize → hydrate
prefix of `run_ws_session` (lines 322-362 plus the two exception handlers):
whether the transport was accepted, the frames sent to this client, the
close code if the socket was closed, the `Connection` registered in the
room (if any), whether the hydration message was reached, and the broker
state after. -/
structure WsSetupOutcome where
  accepted : Bool
  frames : List Frame
  closeCode : Option Nat
  joined : Option Connection
  hydrated : Bool
  broker : Broker
deriving DecidableEq, Repr

/-- The connect/authenticate/authorize/hydrate prefix of `run_ws_session`:
accept unconditionally; a raised `HTTPException` (authentication or
authorization) sends one structured error frame and closes with
`_close_code(1008)`; a missing ride closes with `_close_code(1008)` and no
frame; otherwise the `Connection` is registered via the broker and the
hydration (`connected`) message is sent. A `ValueError` from `Room.add`
falls to the generic handler, closing with `_close_code(1011)`. `ws` is the
transport handle, `now` the connect timestamp. -/
def runWsSessionSetup (token : Option String) (decodeUser : String → Except HTTPError User)
    (storedRide : Option Ride) (ride_id : RideId) (channel : String) (b : Broker)
    (ws now : Nat) : WsSetupOutcome :=
  match authenticateWsUser token decodeUser with
  | .error e => ⟨true, [.errorFrame e.detail], some (close_code 1008), none, false, b⟩
  | .ok user =>
      match storedRide with
      | none => ⟨true, [], some (close_code 1008), none, false, b⟩
      | some ride =>
          match authorizeWsRideAccess user ride channel with
          | .error e => ⟨true, [.errorFrame e.detail], some (close_code 1008), none, false, b⟩
          | .ok _ =>
              let conn : Connection := ⟨ws, user.id, user.role.value, now⟩
              let (room, b1) := b.get_room ride_id
              match room.add conn channel with
              | .error _ => ⟨true, [], some (close_code 1011), none, false, b1⟩
              | .ok room' =>
                  ⟨true,
                    [.connected ride_id channel user.id user.role.value ride.status
                      ride.driver_id ride.rider_id room'.last_location],
                    none, some conn, true, ⟨mapSet b1.rooms ride_id room'⟩⟩

/-- Claim C8: an unauthenticated connection attempt (no token) is accepted
at the transport level, receives exactly one structured error frame, is
closed with the policy-violation code 1008, never reaches the hydrated
state, and registers no `Connection` in any room (the broker is unchanged)
— for every ride id, channel, collaborator behavior and broker state. -/
theorem unauthenticated_ws_closed_1008_never_hydrated :
    ∀ (decodeUser : String → Except HTTPError User) (storedRide : Option Ride)
      (ride_id : RideId) (channel : String) (b : Broker) (ws now : Nat),
      runWsSessionSetup none decodeUser storedRide ride_id channel b ws now =
        ⟨true,
          [.errorFrame "Missing authentication token (use Authorization: Bearer ... or ?token=...)."],
          some 1008, none, false, b⟩ :=
  fun _ _ _ _ _ _ _ => rfl

/-- One inbound JSON message as read by `websocket.receive_json()`: the
fields the receive loop inspects. -/
structure InMsg where
  mtype : Option String
  lat : Option Coord
  lng : Option Coord
  ts : Option Nat
deriving DecidableEq, Repr

/-- How one iteration of the receive loop ends: either the loop continues,
or an exception escaped the loop body, so teardown runs and the outer
handler closes the socket with the given code. -/
inductive LoopOutcome where
  | continueLoop
  | aborted (code : Nat)
deriving DecidableEq, Repr

/-- Observable effect of one receive-loop iteration: frames sent back to
this client, room state after (the location cache), persisted events after,
the payload handed to `broadcast_to_ride` if the broadcast was invoked, and
how the iteration ended. -/
structure StepResult where
  frames : List Frame
  room : RideRoom
  events : List EventRec
  broadcastPayload : Option LocationPayload
  outcome : LoopOutcome
deriving DecidableEq, Repr

/-- The module-level names importable from `src/api/routers/rides.py` (its
definitions and its imports); the local
`from src.api.routers.rides import add_ride_event` inside `run_ws_session`
succeeds only if the requested name is among them. The module defines
`_add_event` but no `add_ride_event`. -/
def ridesModuleNames : List String :=
  ["datetime", "timezone", "Any", "Dict", "List", "Optional", "UUID",
   "APIRouter", "Depends", "HTTPException", "Query", "status", "desc", "select",
   "Session", "get_db", "get_current_user", "require_driver", "Driver",
   "Ride", "RideEvent", "RideStatus", "User", "UserRole",
   "RideAssignRequest", "RideCreateRequest", "RideEventPublic",
   "RideHistoryResponse", "RidePublic", "RideStatusUpdateRequest",
   "router", "_utcnow", "_to_public", "_to_event_public", "_forbidden",
   "_not_found", "_ensure_user_can_view_ride", "_ensure_driver_can_modify_ride",
   "_allowed_transitions", "_validate_transition", "_add_event",
   "create_ride", "assign_driver", "update_ride_status", "get_ride",
   "list_rides", "get_ride_history"]

/-- `from src.api.routers.rides import name`: raises `ImportError` when the
module has no attribute of that name. -/
def importFromRides (name : String) : Except PyError Unit :=
  if name ∈ ridesModuleNames then .ok () else .error (.importError name)

/-- One iteration of the `run_ws_session` receive loop on a successfully
received JSON message (`realtime.py` lines 375-419): the silent `pong`, the
driver-channel location branch (cache update under the room lock, the
local import of `add_ride_event`, the store write, the broadcast), and the
generic ack. `storeWrite` is the Ride Store collaborator performing the
event append, were the call reached; an exception escaping the loop body
runs teardown and the outer generic handler closes the socket with
`_close_code(1011)`. -/
def receiveStep (channel : String) (user : User) (ride_id : RideId) (room : RideRoom)
    (events : List EventRec) (msg : InMsg) (nowTs : Nat)
    (storeWrite : List EventRec → EventRec → Except PyError (List EventRec)) : StepResult :=
  if msg.mtype = some "pong" then
    ⟨[], room, events, none, .continueLoop⟩
  else if channel = "driver" ∧ (msg.mtype = some "location" ∨ msg.mtype = some "driver_location") then
    match msg.lat, msg.lng with
    | some lat, some lng =>
        let payload : LocationPayload := ⟨ride_id, user.id, lat, lng, msg.ts.getD nowTs⟩
        let room' := { room with last_location := some payload }
        match importFromRides "add_ride_event" with
        | .error _ => ⟨[], room', events, none, .aborted (close_code 1011)⟩
        | .ok _ =>
            match storeWrite events
                ⟨ride_id, "driver_location",
                  [("driver_id", toString user.id), ("lat", toString lat), ("lng", toString lng)]⟩ with
            | .error _ => ⟨[], room', events, none, .aborted (close_code 1011)⟩
            | .ok events' => ⟨[], room', events', some payload, .continueLoop⟩
    | _, _ => ⟨[.errorFrame "Missing lat/lng."], room, events, none, .continueLoop⟩
  else
    ⟨[.ack msg.mtype], room, events, none, .continueLoop⟩

/-- Claim C2 (divergence witness): on the driver channel, a location
message missing `lng` does yield one structured error frame and the loop
continues (that half of the claim holds), but a location message with both
`lat` and `lng` present, after updating the cached location of the room, hits
`from src.api.routers.rides import add_ride_event` — a name the module does
not define — so the `ImportError` escapes the loop: NO `driver_location`
event is appended, the broadcast engine is NOT invoked, and the session is
torn down and closed with code 1011 instead of the receive loop
continuing. Stated for every store behavior and starting state. -/
theorem driver_location_message_import_error :
    importFromRides "add_ride_event" = .error (.importError "add_ride_event") ∧
      (∀ (user : User) (ride_id : RideId) (room : RideRoom) (events : List EventRec)
        (lat lng : Coord) (ts nowTs : Nat)
        (storeWrite : List EventRec → EventRec → Except PyError (List EventRec)),
        receiveStep "driver" user ride_id room events ⟨some "location", some lat, some lng, some ts⟩
            nowTs storeWrite =
          ⟨[], { room with last_location := some ⟨ride_id, user.id, lat, lng, ts⟩ },
            events, none, .aborted 1011⟩) ∧
      (∀ (user : User) (ride_id : RideId) (room : RideRoom) (events : List EventRec)
        (lat : Coord) (nowTs : Nat)
        (storeWrite : List EventRec → EventRec → Except PyError (List EventRec)),
        receiveStep "driver" user ride_id room events ⟨some "location", some lat, none, none⟩
            nowTs storeWrite =
          ⟨[.errorFrame "Missing lat/lng."], room, events, none, .continueLoop⟩) :=
  ⟨rfl, fun _ _ _ _ _ _ _ _ _ => rfl, fun _ _ _ _ _ _ _ => rfl⟩

/-- Claim C5 (divergence witness): on the driver-location path the store
write is not reached at all — the local import of `add_ride_event` raises
first — and there is no exception handling around either, so for EVERY
store behavior the broadcast is not invoked and the iteration aborts the
session (close code 1011) instead of continuing: a failing store write is
not tolerated, contradicting the fire-and-forget design the spec states. -/
theorem store_failure_prevents_broadcast_and_kills_session :
    ∀ (user : User) (ride_id : RideId) (room : RideRoom) (events : List EventRec)
      (lat lng : Coord) (ts nowTs : Nat)
      (storeWrite : List EventRec → EventRec → Except PyError (List EventRec)),
      (receiveStep "driver" user ride_id room events ⟨some "location", some lat, some lng, some ts⟩
          nowTs storeWrite).broadcastPayload = none ∧
        (receiveStep "driver" user ride_id room events ⟨some "location", some lat, some lng, some ts⟩
            nowTs storeWrite).outcome = .aborted 1011 :=
  fun _ _ _ _ _ _ _ _ _ => ⟨rfl, rfl⟩

/-! Rooms reachable through the public operations, for the per-room
membership invariant. -/

theorem mapLookup_mapSet_ne_none {α : Type} (m : AMap α) (k : Nat) (v : α) (u : Nat)
    (h : mapLookup (mapSet m k v) u ≠ none) : u = k ∨ mapLookup m u ≠ none := by
  by_cases hu : u = k
  · exact .inl hu
  · right; rwa [mapLookup_mapSet_ne _ _ _ _ hu] at h

theorem mapLookup_mapPop_ne_none {α : Type} (m : AMap α) (k u : Nat)
    (h : mapLookup (mapPop m k) u ≠ none) : mapLookup m u ≠ none := by
  by_cases hu : u = k
  · subst hu; rw [mapLookup_mapPop_self] at h; exact absurd rfl h
  · rwa [mapLookup_mapPop_ne _ _ _ hu] at h

/-- A successful `authorize_ws_ride_access` call pins down the channel and
the role of the caller: driver channel needs role driver and the assigned
driver of the ride; rider channel needs role rider and the rider of the
ride; admin channel
needs role driver. -/
theorem authorize_ok_cases (user : User) (ride : Ride) (channel : String)
    (h : authorizeWsRideAccess user ride channel = .ok ()) :
    (channel = "driver" ∧ user.role = .driver ∧ ride.driver_id = some user.id) ∨
      (channel = "rider" ∧ user.role = .rider ∧ ride.rider_id = user.id) ∨
      (channel = "admin" ∧ user.role = .driver) := by
  by_cases h1 : channel = "driver"
  · subst h1
    left
    simp only [authorizeWsRideAccess, if_pos rfl] at h
    cases hu : user.role
    · rw [hu] at h; simp [UserRole.value] at h
    · rw [hu] at h
      simp only [UserRole.value, ne_eq, not_true_eq_false, if_false, ite_false] at h
      cases hd : ride.driver_id
      · rw [hd] at h; simp at h
      · rw [hd] at h
        rename_i d
        by_cases hdu : d = user.id
        · exact ⟨rfl, rfl, by rw [hdu]⟩
        · simp [hdu] at h
  · by_cases h2 : channel = "rider"
    · subst h2
      right; left
      simp only [authorizeWsRideAccess, if_pos rfl, if_neg (by decide : ¬("rider" = "driver"))] at h
      cases hu : user.role
      · rw [hu] at h
        simp only [UserRole.value, ne_eq, not_true_eq_false, if_false, ite_false] at h
        by_cases hru : ride.rider_id = user.id
        · exact ⟨rfl, rfl, hru⟩
        · simp [hru] at h
      · rw [hu] at h; simp [UserRole.value] at h
    · by_cases h3 : channel = "admin"
      · subst h3
        right; right
        simp only [authorizeWsRideAccess, if_pos rfl,
          if_neg (by decide : ¬("admin" = "driver")),
          if_neg (by decide : ¬("admin" = "rider"))] at h
        cases hu : user.role
        · rw [hu] at h; simp [UserRole.value] at h
        · exact ⟨rfl, rfl⟩
      · simp [authorizeWsRideAccess, h1, h2, h3] at h

/-- Room states reachable through the public operations for one ride:
starting from the empty room, sessions that passed
`authorize_ws_ride_access` register a `Connection` built from the
authenticated user (as `run_ws_session` does), teardown and broadcast
eviction call `Room.remove`, and the driver-location path updates the
cached location. `roleOf` is the users table: the fixed role stored for
each user id. -/
inductive ReachableRoom (roleOf : UserId → UserRole) (ride : Ride) : RideRoom → Prop where
  | init : ReachableRoom roleOf ride (emptyRoom ride.id)
  | join : ∀ (room room' : RideRoom) (ws uid t : Nat) (channel : String),
      ReachableRoom roleOf ride room →
      authorizeWsRideAccess ⟨uid, roleOf uid⟩ ride channel = .ok () →
      RideRoom.add room ⟨ws, uid, (roleOf uid).value, t⟩ channel = .ok room' →
      ReachableRoom roleOf ride room'
  | leave : ∀ (room : RideRoom) (uid : UserId),
      ReachableRoom roleOf ride room →
      ReachableRoom roleOf ride (room.remove uid)
  | cacheUpdate : ∀ (room : RideRoom) (p : LocationPayload),
      ReachableRoom roleOf ride room →
      ReachableRoom roleOf ride { room with last_location := some p }

/-- Role invariant of reachable rooms: everyone in the rider mapping has
role rider in the users table, everyone in the driver or admin mapping has
role driver. -/
theorem reachable_room_role_invariant (roleOf : UserId → UserRole) (ride : Ride)
    (room : RideRoom) (h : ReachableRoom roleOf ride room) :
    (∀ u, mapLookup room.riders u ≠ none → roleOf u = .rider) ∧
      (∀ u, mapLookup room.drivers u ≠ none → roleOf u = .driver) ∧
      (∀ u, mapLookup room.admins u ≠ none → roleOf u = .driver) := by
  induction h with
  | init => simp [emptyRoom, mapLookup]
  | join room room' ws uid t channel hre hauth hadd ih =>
      rcases authorize_ok_cases _ _ _ hauth with ⟨hc, hrole, -⟩ | ⟨hc, hrole, -⟩ | ⟨hc, hrole⟩
      · subst hc
        simp [RideRoom.add] at hadd
        subst hadd
        refine ⟨ih.1, fun u hu => ?_, ih.2.2⟩
        rcases mapLookup_mapSet_ne_none _ _ _ _ hu with rfl | hu'
        · exact hrole
        · exact ih.2.1 u hu'
      · subst hc
        simp [RideRoom.add] at hadd
        subst hadd
        refine ⟨fun u hu => ?_, ih.2.1, ih.2.2⟩
        rcases mapLookup_mapSet_ne_none _ _ _ _ hu with rfl | hu'
        · exact hrole
        · exact ih.1 u hu'
      · subst hc
        simp [RideRoom.add] at hadd
        subst hadd
        refine ⟨ih.1, ih.2.1, fun u hu => ?_⟩
        rcases mapLookup_mapSet_ne_none _ _ _ _ hu with rfl | hu'
        · exact hrole
        · exact ih.2.2 u hu'
  | leave room uid hre ih =>
      exact ⟨fun u hu => ih.1 u (mapLookup_mapPop_ne_none _ _ _ hu),
        fun u hu => ih.2.1 u (mapLookup_mapPop_ne_none _ _ _ hu),
        fun u hu => ih.2.2 u (mapLookup_mapPop_ne_none _ _ _ hu)⟩
  | cacheUpdate room p hre ih => exact ih

/-- Claim C7 counterexample: with every user a driver in the users table
and ride `1` assigned to driver `2`, the assigned driver can join the
`driver` channel and then also the `admin` (spec: observer) channel — both
joins pass `authorize_ws_ride_access` — after which user `2` is present in
BOTH the driver and the admin mapping of the reachable room, violating the
claimed at-most-one-mapping invariant. -/
theorem room_user_in_two_mappings_counterexample :
    ∃ room : RideRoom,
      ReachableRoom (fun _ => UserRole.driver)
          ⟨1, 1, some 2, 0, 0, 0, 0, .assigned, none, 0, 0⟩ room ∧
        mapLookup room.drivers 2 ≠ none ∧ mapLookup room.admins 2 ≠ none := by
  refine ⟨⟨1, [], [(2, ⟨10, 2, "driver", 0⟩)], [(2, ⟨11, 2, "driver", 5⟩)], none⟩,
    ?_, by decide, by decide⟩
  have h0 : ReachableRoom (fun _ => UserRole.driver)
      ⟨1, 1, some 2, 0, 0, 0, 0, .assigned, none, 0, 0⟩ (emptyRoom 1) :=
    ReachableRoom.init
  have h1 := ReachableRoom.join (emptyRoom 1)
    ⟨1, [], [(2, ⟨10, 2, "driver", 0⟩)], [], none⟩ 10 2 0 "driver" h0
    (by decide) (by decide)
  exact ReachableRoom.join ⟨1, [], [(2, ⟨10, 2, "driver", 0⟩)], [], none⟩
    ⟨1, [], [(2, ⟨10, 2, "driver", 0⟩)], [(2, ⟨11, 2, "driver", 5⟩)], none⟩
    11 2 5 "admin" h1 (by decide) (by decide)

/-- Claim C7 amended: in every reachable room a user id never appears in
both the rider and the driver mapping, nor in both the rider and the
observer (admin) mapping; a driver CAN appear in the driver and observer
mappings simultaneously (see the counterexample), which is the only
overlap the code permits. -/
theorem reachable_room_rider_mapping_disjoint (roleOf : UserId → UserRole) (ride : Ride)
    (room : RideRoom) (h : ReachableRoom roleOf ride room) (u : UserId) :
    ¬(mapLookup room.riders u ≠ none ∧ mapLookup room.drivers u ≠ none) ∧
      ¬(mapLookup room.riders u ≠ none ∧ mapLookup room.admins u ≠ none) := by
  obtain ⟨hr, hd, ha⟩ := reachable_room_role_invariant roleOf ride room h
  refine ⟨fun ⟨h1, h2⟩ => ?_, fun ⟨h1, h2⟩ => ?_⟩
  · exact UserRole.noConfusion ((hr u h1).symm.trans (hd u h2))
  · exact UserRole.noConfusion ((hr u h1).symm.trans (ha u h2))

/-- Witness for C7's amended theorem at a concrete reachable room (the
empty room of ride `1`). -/
theorem reachable_room_rider_mapping_disjoint_witness :
    ¬(mapLookup (emptyRoom 1).riders 3 ≠ none ∧ mapLookup (emptyRoom 1).drivers 3 ≠ none) :=
  (reachable_room_rider_mapping_disjoint (fun _ => UserRole.rider)
    ⟨1, 1, none, 0, 0, 0, 0, .requested, none, 0, 0⟩ (emptyRoom 1)
    ReachableRoom.init 3).1

end RideConnect
